import Mathlib

/-!
Verification of the bootstrap shim `src/terminal-emulator/src/main/jni/python.c`
(repository anwarpro/android-python-compiler).

The C program is a linear bootstrap: it resolves environment variables,
dlopens a Python runtime library, resolves nine entry-point symbols,
builds the module search path and a sequence of injected statements,
marshals the host argument vector through `Py_DecodeLocale`, calls
`Py_Main`, and returns its result.

The shallow embedding below models the program as a pure function from a
`World` (the oracle supplying everything external: the process environment,
the outcome of `dlopen`/`dlsym`, the behaviour of the runtime's decode /
run-string / main entry points, and the process locales) to a `PyResult`
(exit code, accumulated standard-error output, a trace of the calls made
into the runtime, the final process locale, the environment after the
resolver ran, and the argument arrays handed to `Py_Main`).

Modelling conventions:
* C strings are Lean `String`s; for the ASCII strings the program builds,
  C's byte counts coincide with character counts.
* `snprintf(buf, cap, ...)` truncates the formatted result to `cap - 1`
  characters (`snprintfTrunc`).
* Wide (`wchar_t*`) strings produced by `Py_DecodeLocale` are `List Char`;
  a NULL result is `none`.  `Py_DecodeLocale` is locale-sensitive, so the
  oracle's `decode` takes the locale active at the call.
* A NULL `char *` from `getenv` is `none`; when the C code formats such a
  value with `%s`, bionic/glibc print `"(null)"`, modelled by `.getD "(null)"`.
* `exit(1)` yields exit code 1; `return ret` yields `ret`.  Memory
  allocation (`PyMem_RawMalloc`) results are not checked by the C code and
  are not modelled; frees and `dlclose` have no observable effect here.
-/

namespace PythonBootstrap

/-- Model of `snprintf(buf, cap, ...)`: the formatted string truncated to at
most `cap - 1` characters (the last byte of the buffer holds the NUL). -/
def snprintfTrunc (cap : Nat) (s : String) : String := ⟨s.data.take (cap - 1)⟩

/-- Pointwise update of the process environment, as done by `setenv(k, v, 1)`.
The value is an `Option` so that the copy of a possibly-NULL `getenv` result
(line `setenv("ANDROID_APP_PATH", env_argument, 1)`) can be expressed. -/
def updateEnv (env : String → Option String) (k : String) (v : Option String) :
    String → Option String :=
  fun n => if n = k then v else env n

/-- The Environment Resolver phase (python.c lines 31-47):
`setenv("P4A_BOOTSTRAP", "SDL2", 1)`; read `ANDROID_ARGUMENT`; copy it to
`ANDROID_APP_PATH`; default `ANDROID_UNPACK` to `ANDROID_ARGUMENT` when
unset; default `PYTHON_NAME` to `"python"` when unset.  The reads of
`EXEPATH`, `WAIT_FOR_EXIT` and `ANDROID_ENTRYPOINT` do not mutate the
environment and need no modelling here. -/
def resolveEnv (env : String → Option String) : String → Option String :=
  let env1 := updateEnv env "P4A_BOOTSTRAP" (some "SDL2")
  let env2 := updateEnv env1 "ANDROID_APP_PATH" (env1 "ANDROID_ARGUMENT")
  let env3 :=
    if (env2 "ANDROID_UNPACK").isNone then
      updateEnv env2 "ANDROID_UNPACK" (env2 "ANDROID_ARGUMENT")
    else env2
  if (env3 "PYTHON_NAME").isNone then
    updateEnv env3 "PYTHON_NAME" (some "python")
  else env3

/-- The nine entry-point symbols, in the order python.c resolves them. -/
def nineSymbols : List String :=
  ["Py_SetProgramName", "Py_DecodeLocale", "Py_SetPath", "Py_Initialize",
   "PyEval_InitThreads", "PyRun_SimpleString", "PyMem_RawMalloc",
   "PyMem_RawFree", "Py_Main"]

/-- The oracle: everything external the program interacts with. -/
structure World where
  /-- initial process environment -/
  env : String → Option String
  /-- whether `dlopen(exePath, RTLD_LAZY)` yields a handle -/
  dlopenOk : Bool
  /-- the `dlerror()` message when `dlopen` fails -/
  dlopenErr : String
  /-- whether `dlsym` resolves a given symbol name -/
  resolves : String → Bool
  /-- the `dlerror()` message when a given symbol fails to resolve -/
  symErr : String → String
  /-- model of `Py_DecodeLocale`: given the locale active at the call and the
  native string; `none` models a NULL return -/
  decode : String → String → Option (List Char)
  /-- the locale installed by `setlocale(LC_ALL, "")` -/
  nativeLocale : String
  /-- the process locale at program start -/
  locale0 : String
  /-- result of `PyRun_SimpleString` for each statement -/
  runString : String → Int
  /-- model of `Py_Main`: given argc and the decoded argv (NULL entries are `none`) -/
  pyMain : Nat → List (Option (List Char)) → Int

/-- Trace of the calls the program makes into the runtime library. -/
inductive Ev where
  /-- call `Py_SetProgramName(L"android_python")` -/
  | setProgramNameEv : String → Ev
  /-- call `Py_SetPath`: the native search-path string and its decoded form -/
  | setPathEv : String → Option (List Char) → Ev
  /-- call `Py_Initialize()` -/
  | initEv : Ev
  /-- call `PyEval_InitThreads()` -/
  | evalInitEv : Ev
  /-- call `PyRun_SimpleString(stmt)` and the result it returned -/
  | runStringEv : String → Int → Ev
  /-- call `Py_Main(argc, argv_copy)` -/
  | pyMainEv : Nat → List (Option (List Char)) → Ev
deriving DecidableEq

/-- Observable outcome of one run of the program. -/
structure PyResult where
  /-- the process exit status (argument of `exit`, or `main`'s return) -/
  exitCode : Int
  /-- everything written to the standard error stream -/
  stderrOut : String
  /-- the runtime calls, in order -/
  trace : List Ev
  /-- the process locale when the process ends -/
  finalLocale : String
  /-- the environment after the resolver phase -/
  envAfter : String → Option String
  /-- the two marshaled arrays (`argv_copy`, `argv_copy2`) at the moment
  `Py_Main` is called, `none` when that point is never reached -/
  pyArgs : Option (List (Option (List Char)) × List (Option (List Char)))

/-- buffer `python_bundle_dir` (python.c lines 126-128):
`snprintf(python_bundle_dir, 256, "%s/_python_bundle", getenv("ANDROID_UNPACK"))`. -/
def python_bundle_dir (unpack : String) : String :=
  snprintfTrunc 256 (unpack ++ "/_python_bundle")

/-- buffer `paths` (python.c lines 130-132):
`snprintf(paths, 256, "%s/stdlib.zip:%s/modules", python_bundle_dir, python_bundle_dir)`. -/
def searchPaths (unpack : String) : String :=
  snprintfTrunc 256
    (python_bundle_dir unpack ++ "/stdlib.zip:" ++ python_bundle_dir unpack ++ "/modules")

/-- buffer `add_site_packages_dir` (python.c lines 149-151). -/
def add_site_packages_dir (unpack : String) : String :=
  snprintfTrunc 256
    ("sys.path.append(\x27" ++ python_bundle_dir unpack ++ "/site-packages\x27)")

/-- buffer `add_lib_path` (python.c lines 153-155). -/
def add_lib_path (unpack : String) : String :=
  snprintfTrunc 256
    ("sys.path.append(\x27" ++ unpack ++ "/lib/python3.8/site-packages\x27)")

/-- buffer `add_prefix` (python.c lines 157-159). -/
def add_prefix_line (unpack : String) : String :=
  snprintfTrunc 256 ("sys.prefix = \x27" ++ unpack ++ "\x27")

/-- First injected statement (python.c line 146). -/
def importStmt : String := "import sys, posix\n"

/-- Second injected statement (python.c lines 161-163): the three C string
literals are concatenated by the compiler into one statement. -/
def argvResetStmt : String :=
  "import sys\nsys.argv = [\x27notaninterpreterreally\x27]\nfrom os.path import realpath, join, dirname"

/-- Last injected statement (python.c line 167). -/
def dotPathStmt : String := "sys.path = [\x27.\x27] + sys.path"

/-- The stderr message of python.c lines 180-181 for a decode failure at
0-based index `i` (the `%i` argument is `i + 1`). -/
def fatalDecodeMsg (i : Nat) : String :=
  "Fatal Python error: unable to decode the command line argument #" ++ toString (i + 1) ++ "\n"

/-- The marshaling loop (python.c lines 176-186): decode each argument in
order; at the first failure return its 0-based index `i` (the C code prints
`i + 1` and exits); on success return the contents of `argv_copy` and
`argv_copy2` (assignment `argv_copy2[i] = argv_copy[i]` duplicates each
element).  `k` is the index of the first remaining argument. -/
def marshalLoop (dec : String → Option (List Char)) :
    List String → Nat → Except Nat (List (List Char) × List (List Char))
  | [], _ => .ok ([], [])
  | a :: rest, k =>
    match dec a with
    | none => .error k
    | some wa =>
      match marshalLoop dec rest (k + 1) with
      | .error j => .error j
      | .ok (c1, c2) => .ok (wa :: c1, wa :: c2)

/-- The unpack root the builder phase uses: `getenv("ANDROID_UNPACK")` after
the resolver ran (when unset, C's `%s` of a NULL pointer prints `"(null)"`). -/
def unpackOf (w : World) : String :=
  ((resolveEnv w.env) "ANDROID_UNPACK").getD "(null)"

/-- The runtime calls made by the Path & Bootstrap Script Builder phase
(python.c lines 121-167), in source order: `Py_SetProgramName`,
`Py_SetPath` on the decoded search path, `Py_Initialize`,
`PyEval_InitThreads`, then the six injected statements. -/
def builderTrace (w : World) : List Ev :=
  [.setProgramNameEv "android_python",
   .setPathEv (searchPaths (unpackOf w)) (w.decode w.locale0 (searchPaths (unpackOf w))),
   .initEv,
   .evalInitEv,
   .runStringEv importStmt (w.runString importStmt),
   .runStringEv argvResetStmt (w.runString argvResetStmt),
   .runStringEv (add_prefix_line (unpackOf w)) (w.runString (add_prefix_line (unpackOf w))),
   .runStringEv (add_site_packages_dir (unpackOf w)) (w.runString (add_site_packages_dir (unpackOf w))),
   .runStringEv (add_lib_path (unpackOf w)) (w.runString (add_lib_path (unpackOf w))),
   .runStringEv dotPathStmt (w.runString dotPathStmt)]

/-- The whole program (python.c `main`), as a function of the oracle and the
host argument vector (`argc = args.length`). -/
def pythonMain (w : World) (args : List String) : PyResult :=
  let env := resolveEnv w.env
  if w.dlopenOk then
    match nineSymbols.find? (fun n => !(w.resolves n)) with
    | some n =>
      -- a dlsym failure: fputs(dlerror(), stderr); exit(1)
      ⟨1, w.symErr n, [], w.locale0, env, none⟩
    | none =>
      -- builder phase runs, then the marshaler:
      -- oldloc := current locale; setlocale(LC_ALL, "")
      match marshalLoop (w.decode w.nativeLocale) args 0 with
      | .error i =>
        -- free(oldloc); fprintf(stderr, ...); exit(1) — the locale is NOT
        -- restored on this path: it remains the native locale.
        ⟨1, fatalDecodeMsg i, builderTrace w, w.nativeLocale, env, none⟩
      | .ok (c1, c2) =>
        -- argv_copy2[argc] = argv_copy[argc] = 0; setlocale(LC_ALL, oldloc)
        let a1 := c1.map some ++ [none]
        let a2 := c2.map some ++ [none]
        ⟨w.pyMain args.length a1, "", builderTrace w ++ [.pyMainEv args.length a1],
         w.locale0, env, some (a1, a2)⟩
  else
    -- dlopen failed: fputs(dlerror(), stderr); exit(1)
    ⟨1, w.dlopenErr, [], w.locale0, env, none⟩

/-- The library opened and all nine symbols resolved. -/
def binderOk (w : World) : Prop :=
  w.dlopenOk = true ∧ ∀ n ∈ nineSymbols, w.resolves n = true

instance (w : World) : Decidable (binderOk w) := by
  unfold binderOk; infer_instance

/-- Whether a trace contains a `Py_Main` invocation. -/
def hasPyMain (t : List Ev) : Bool :=
  t.any fun e => match e with
    | .pyMainEv _ _ => true
    | _ => false

/-- Whether a trace contains a `PyRun_SimpleString` call with statement `s`. -/
def hasStmt (t : List Ev) (s : String) : Bool :=
  t.any fun e => match e with
    | .runStringEv s' _ => s' == s
    | _ => false

/-- Whether a trace contains a `Py_SetPath` call whose native string is `s`. -/
def hasSetPath (t : List Ev) (s : String) : Bool :=
  t.any fun e => match e with
    | .setPathEv s' _ => s' == s
    | _ => false

/-- Erase the recorded `PyRun_SimpleString` results from an event. -/
def eraseRes : Ev → Ev
  | .runStringEv s _ => .runStringEv s 0
  | e => e

/-- A world in which everything succeeds: `ANDROID_ARGUMENT=/data/app`, the
library opens, all symbols resolve, decoding always succeeds (returning the
characters of the input), and `Py_Main` returns its argc. -/
def okWorld : World where
  env := fun n => if n = "ANDROID_ARGUMENT" then some "/data/app" else none
  dlopenOk := true
  dlopenErr := "dlopen failed"
  resolves := fun _ => true
  symErr := fun _ => "undefined symbol"
  decode := fun _ s => some s.data
  nativeLocale := "en_US.UTF-8"
  locale0 := "C"
  runString := fun _ => 0
  pyMain := fun n _ => Int.ofNat n

/-- like `okWorld`, except that the runtime library fails to open. -/
def noLibWorld : World := { okWorld with dlopenOk := false }

/-- like `okWorld`, except that `Py_DecodeLocale` only succeeds under the startup
locale `"C"`; decoding under the native locale (the marshaler's situation)
fails, so every command-line argument fails to decode. -/
def localeSensitiveWorld : World :=
  { okWorld with decode := fun loc s => if loc = "C" then some s.data else none }

/-- A 300-character unpack root, long enough to overflow every 256-byte
buffer of the builder phase. -/
def longU : String := ⟨List.replicate 300 'a'⟩

/-- like `okWorld`, except that `ANDROID_ARGUMENT` (hence the defaulted
`ANDROID_UNPACK`) is the 300-character root `longU`. -/
def longWorld : World :=
  { okWorld with env := fun n => if n = "ANDROID_ARGUMENT" then some longU else none }

/-- A concrete starting environment for the resolver: only
`ANDROID_ARGUMENT` is set. -/
def envA : String → Option String :=
  fun n => if n = "ANDROID_ARGUMENT" then some "/data/app" else none

/-! ### Helper lemmas -/

theorem length_mk (l : List Char) : (String.mk l).length = l.length := rfl

theorem snprintfTrunc_length (cap : Nat) (s : String) :
    (snprintfTrunc cap s).length = min (cap - 1) s.length := by
  cases s with
  | mk l => simp [snprintfTrunc, length_mk, List.length_take]

theorem snprintfTrunc_of_fits (cap : Nat) (s : String) (h : s.length ≤ cap - 1) :
    snprintfTrunc cap s = s := by
  cases s with
  | mk l =>
    simp only [snprintfTrunc]
    rw [List.take_of_length_le h]

theorem snprintfTrunc_of_long (cap : Nat) (s : String) (h : cap - 1 < s.length) :
    (snprintfTrunc cap s).length = cap - 1 ∧ snprintfTrunc cap s ≠ s := by
  have hl : (snprintfTrunc cap s).length = cap - 1 := by
    rw [snprintfTrunc_length]; omega
  refine ⟨hl, fun he => ?_⟩
  rw [he] at hl
  omega

theorem ite_apply_env (c : Prop) [Decidable c] (f g : String → Option String) (k : String) :
    (if c then f else g) k = if c then f k else g k := by
  split <;> rfl

theorem resolveEnv_unpack (env : String → Option String) :
    resolveEnv env "ANDROID_UNPACK" =
      if (env "ANDROID_UNPACK").isNone then env "ANDROID_ARGUMENT"
      else env "ANDROID_UNPACK" := by
  simp [resolveEnv, updateEnv, ite_apply_env]

theorem find?_none_of_binderOk (w : World) (hb : binderOk w) :
    nineSymbols.find? (fun n => !(w.resolves n)) = none := by
  rw [List.find?_eq_none]
  intro x hx
  simp [hb.2 x hx]

theorem pythonMain_dlopen_fail (w : World) (args : List String) (h : w.dlopenOk = false) :
    pythonMain w args = ⟨1, w.dlopenErr, [], w.locale0, resolveEnv w.env, none⟩ := by
  simp [pythonMain, h]

theorem pythonMain_symbol_fail (w : World) (args : List String) (n : String)
    (hd : w.dlopenOk = true)
    (hf : nineSymbols.find? (fun n => !(w.resolves n)) = some n) :
    pythonMain w args = ⟨1, w.symErr n, [], w.locale0, resolveEnv w.env, none⟩ := by
  simp [pythonMain, hd, hf]

theorem pythonMain_decode_fail (w : World) (args : List String) (i : Nat)
    (hb : binderOk w)
    (hm : marshalLoop (w.decode w.nativeLocale) args 0 = .error i) :
    pythonMain w args =
      ⟨1, fatalDecodeMsg i, builderTrace w, w.nativeLocale, resolveEnv w.env, none⟩ := by
  simp [pythonMain, hb.1, find?_none_of_binderOk w hb, hm]

theorem pythonMain_ok (w : World) (args : List String) (c1 c2 : List (List Char))
    (hb : binderOk w)
    (hm : marshalLoop (w.decode w.nativeLocale) args 0 = .ok (c1, c2)) :
    pythonMain w args =
      ⟨w.pyMain args.length (c1.map some ++ [none]), "",
       builderTrace w ++ [.pyMainEv args.length (c1.map some ++ [none])],
       w.locale0, resolveEnv w.env, some (c1.map some ++ [none], c2.map some ++ [none])⟩ := by
  simp [pythonMain, hb.1, find?_none_of_binderOk w hb, hm]

theorem marshalLoop_ok_spec (dec : String → Option (List Char)) :
    ∀ (args : List String) (k : Nat) (c1 c2 : List (List Char)),
      marshalLoop dec args k = .ok (c1, c2) →
      c1 = c2 ∧ c1.length = args.length ∧ ∀ j : Nat, c1[j]? = (args[j]?).bind dec
  | [], _, c1, c2, h => by
    simp only [marshalLoop, Except.ok.injEq, Prod.mk.injEq] at h
    obtain ⟨h1, h2⟩ := h
    subst h1
    subst h2
    exact ⟨rfl, rfl, fun j => by simp⟩
  | a :: rest, k, c1, c2, h => by
    simp only [marshalLoop] at h
    cases hda : dec a with
    | none => rw [hda] at h; exact absurd h (by simp)
    | some wa =>
      rw [hda] at h
      cases hrec : marshalLoop dec rest (k + 1) with
      | error j => rw [hrec] at h; exact absurd h (by simp)
      | ok p =>
        obtain ⟨d1, d2⟩ := p
        rw [hrec] at h
        simp only [Except.ok.injEq, Prod.mk.injEq] at h
        obtain ⟨h1, h2⟩ := h
        obtain ⟨ih1, ih2, ih3⟩ := marshalLoop_ok_spec dec rest (k + 1) d1 d2 hrec
        subst h1
        subst h2
        refine ⟨by rw [ih1], by simpa using ih2, fun j => ?_⟩
        cases j with
        | zero => simp [hda]
        | succ j' => simpa using ih3 j'

theorem marshalLoop_first_fail (dec : String → Option (List Char)) :
    ∀ (args : List String) (k i : Nat) (a : String),
      args[i]? = some a → dec a = none →
      (∀ j, j < i → ∃ b wb, args[j]? = some b ∧ dec b = some wb) →
      marshalLoop dec args k = .error (k + i)
  | [], _, i, a, ha, _, _ => by simp at ha
  | b :: rest, k, i, a, ha, hfail, hprev => by
    cases i with
    | zero =>
      have hb : b = a := by simpa using ha
      subst hb
      simp [marshalLoop, hfail]
    | succ i' =>
      obtain ⟨c, wc, hc, hwc⟩ := hprev 0 (Nat.succ_pos i')
      have hbc : b = c := by simpa using hc
      subst hbc
      have ih := marshalLoop_first_fail dec rest (k + 1) i' a (by simpa using ha) hfail
        (fun j hj => by simpa using hprev (j + 1) (Nat.succ_lt_succ hj))
      have harith : k + 1 + i' = k + (i' + 1) := by omega
      simp [marshalLoop, hwc, ih, harith]



theorem pythonMain_binder_fail (w : World) (args : List String) (hnb : ¬ binderOk w) :
    ∃ msg, pythonMain w args = ⟨1, msg, [], w.locale0, resolveEnv w.env, none⟩ ∧
      (msg = w.dlopenErr ∨ ∃ n ∈ nineSymbols, w.resolves n = false ∧ msg = w.symErr n) := by
  cases hd : w.dlopenOk with
  | false => exact ⟨w.dlopenErr, pythonMain_dlopen_fail w args hd, Or.inl rfl⟩
  | true =>
    cases hf : nineSymbols.find? (fun n => !(w.resolves n)) with
    | none =>
      exfalso
      apply hnb
      refine ⟨hd, fun n hn => ?_⟩
      rw [List.find?_eq_none] at hf
      have hx := hf n hn
      cases h : w.resolves n
      · rw [h] at hx; simp at hx
      · rfl
    | some m =>
      have hm := List.find?_some hf
      have hmem := List.mem_of_find?_eq_some hf
      exact ⟨w.symErr m, pythonMain_symbol_fail w args m hd hf,
        Or.inr ⟨m, hmem, by simpa using hm, rfl⟩⟩

theorem binderOk_of_find?_none (w : World) (hd : w.dlopenOk = true)
    (hf : nineSymbols.find? (fun n => !(w.resolves n)) = none) : binderOk w := by
  refine ⟨hd, fun n hn => ?_⟩
  rw [List.find?_eq_none] at hf
  have hx := hf n hn
  cases h : w.resolves n
  · rw [h] at hx; simp at hx
  · rfl

/-- C7: if `ANDROID_UNPACK` is unset and `ANDROID_ARGUMENT` is set, the
resolver exports `ANDROID_UNPACK` equal to `ANDROID_ARGUMENT`; if
`ANDROID_UNPACK` is already set, the resolver leaves its value unchanged. -/
theorem C7_unpack_resolution (env : String → Option String) (a : String) :
    (env "ANDROID_UNPACK" = none → env "ANDROID_ARGUMENT" = some a →
      resolveEnv env "ANDROID_UNPACK" = some a) ∧
    (∀ u, env "ANDROID_UNPACK" = some u → resolveEnv env "ANDROID_UNPACK" = some u) := by
  refine ⟨fun h1 h2 => ?_, fun u hu => ?_⟩
  · simp [resolveEnv_unpack, h1, h2]
  · simp [resolveEnv_unpack, hu]

theorem C7_witness :
    resolveEnv envA "ANDROID_UNPACK" = some "/data/app" ∧
    resolveEnv (updateEnv envA "ANDROID_UNPACK" (some "/unpack")) "ANDROID_UNPACK" =
      some "/unpack" :=
  ⟨(C7_unpack_resolution envA "/data/app").1 (by decide) (by decide),
   (C7_unpack_resolution (updateEnv envA "ANDROID_UNPACK" (some "/unpack")) "/data/app").2
     "/unpack" (by decide)⟩

/-- C2: when `dlopen` fails or any of the nine symbols fails to resolve, the
process exits with status 1, writes a non-empty diagnostic to stderr (given
that the loader's messages are non-empty), and never calls `Py_Main`. -/
theorem C2_bootstrap_failure (w : World) (args : List String)
    (hfail : w.dlopenOk = false ∨ ∃ n ∈ nineSymbols, w.resolves n = false)
    (he1 : w.dlopenErr ≠ "") (he2 : ∀ n, w.symErr n ≠ "") :
    (pythonMain w args).exitCode = 1 ∧
    (pythonMain w args).stderrOut ≠ "" ∧
    hasPyMain (pythonMain w args).trace = false := by
  have hnb : ¬ binderOk w := by
    rcases hfail with h | ⟨n, hn, hrn⟩
    · intro hb; rw [hb.1] at h; cases h
    · intro hb; have := hb.2 n hn; rw [hrn] at this; cases this
  obtain ⟨msg, hrun, hmsg⟩ := pythonMain_binder_fail w args hnb
  rw [hrun]
  refine ⟨rfl, ?_, rfl⟩
  rcases hmsg with h | ⟨n, _, _, h⟩
  · rw [h]; exact he1
  · rw [h]; exact he2 n

theorem C2_witness :
    (pythonMain noLibWorld []).exitCode = 1 ∧
    (pythonMain noLibWorld []).stderrOut ≠ "" ∧
    hasPyMain (pythonMain noLibWorld []).trace = false :=
  C2_bootstrap_failure noLibWorld [] (Or.inl (by decide)) (by decide) (fun n => by simp [noLibWorld, okWorld])

/-- C5: on a fully successful bootstrap the exit status is exactly the
integer `Py_Main` returns; on any bootstrap-phase failure it is the fixed
value 1. -/
theorem C5_exit_status (w : World) (args : List String) :
    (∀ c1 c2, binderOk w → marshalLoop (w.decode w.nativeLocale) args 0 = .ok (c1, c2) →
      (pythonMain w args).exitCode = w.pyMain args.length (c1.map some ++ [none])) ∧
    ((¬ binderOk w ∨ ∃ i, marshalLoop (w.decode w.nativeLocale) args 0 = .error i) →
      (pythonMain w args).exitCode = 1) := by
  constructor
  · intro c1 c2 hb hm
    rw [pythonMain_ok w args c1 c2 hb hm]
  · intro hf
    by_cases hb : binderOk w
    · rcases hf with hnb | ⟨i, hi⟩
      · exact absurd hb hnb
      · rw [pythonMain_decode_fail w args i hb hi]
    · obtain ⟨msg, hrun, _⟩ := pythonMain_binder_fail w args hb
      rw [hrun]

theorem C5_witness :
    (pythonMain okWorld ["python"]).exitCode = okWorld.pyMain 1 [some "python".data, none] ∧
    (pythonMain noLibWorld ["python"]).exitCode = 1 := by
  constructor
  · have h := (C5_exit_status okWorld ["python"]).1 ["python".data] ["python".data]
      (by decide) rfl
    simpa using h
  · exact (C5_exit_status noLibWorld ["python"]).2 (Or.inl (by decide))

/-- C3: when every argument decodes, both arrays have length `argc + 1`,
elements `0..argc-1` are the decoded arguments in order, element `argc` is
the null terminator in both, and the arrays are identical when `Py_Main` is
called. -/
theorem C3_argument_marshaling (w : World) (args : List String) (c1 c2 : List (List Char))
    (hb : binderOk w)
    (hm : marshalLoop (w.decode w.nativeLocale) args 0 = .ok (c1, c2)) :
    (pythonMain w args).pyArgs = some (c1.map some ++ [none], c2.map some ++ [none]) ∧
    c1.map some ++ [none] = c2.map some ++ [none] ∧
    (c1.map some ++ [none]).length = args.length + 1 ∧
    (c2.map some ++ [none]).length = args.length + 1 ∧
    (∀ j : Nat, j < args.length →
      (c1.map some ++ [none])[j]? = some ((args[j]?).bind (w.decode w.nativeLocale))) ∧
    (c1.map some ++ [none])[args.length]? = some none ∧
    Ev.pyMainEv args.length (c1.map some ++ [none]) ∈ (pythonMain w args).trace := by
  obtain ⟨he, hlen, helem⟩ := marshalLoop_ok_spec (w.decode w.nativeLocale) args 0 c1 c2 hm
  subst he
  rw [pythonMain_ok w args c1 c1 hb hm]
  refine ⟨rfl, rfl, by simp [hlen], by simp [hlen], fun j hj => ?_, ?_, by simp⟩
  · have hj1 : j < (c1.map some).length := by simpa [hlen] using hj
    have hj2 : j < c1.length := by simpa [hlen] using hj
    rw [List.getElem?_append_left hj1, List.getElem?_map]
    have hx : (args[j]?).bind (w.decode w.nativeLocale) = some c1[j] := by
      rw [← helem j]
      exact List.getElem?_eq_getElem hj2
    rw [helem j, hx]
    rfl
  · rw [List.getElem?_append_right (by simp [hlen])]
    simp [hlen]

theorem C3_witness :
    (pythonMain okWorld ["python"]).pyArgs =
      some ([some "python".data, none], [some "python".data, none]) := by
  have h := C3_argument_marshaling okWorld ["python"] ["python".data] ["python".data]
    (by decide) rfl
  simpa using h.1

/-- C6: a decode failure at 0-based index `i` (all earlier indices decoding
successfully) exits with status 1, reports the 1-based ordinal `i + 1` on
stderr, and never calls `Py_Main` with any (partial) array. -/
theorem C6_decode_failure_reporting (w : World) (args : List String) (i : Nat) (a : String)
    (hb : binderOk w) (ha : args[i]? = some a)
    (hfail : w.decode w.nativeLocale a = none)
    (hprev : ∀ j, j < i → ∃ b wb, args[j]? = some b ∧ w.decode w.nativeLocale b = some wb) :
    (pythonMain w args).exitCode = 1 ∧
    (pythonMain w args).stderrOut = fatalDecodeMsg i ∧
    hasPyMain (pythonMain w args).trace = false ∧
    (pythonMain w args).pyArgs = none := by
  have hm := marshalLoop_first_fail (w.decode w.nativeLocale) args 0 i a ha hfail hprev
  rw [pythonMain_decode_fail w args i hb (by simpa using hm)]
  refine ⟨rfl, rfl, ?_, rfl⟩
  simp [hasPyMain, builderTrace]

theorem C6_witness :
    (pythonMain localeSensitiveWorld ["python"]).exitCode = 1 ∧
    (pythonMain localeSensitiveWorld ["python"]).stderrOut = fatalDecodeMsg 0 ∧
    hasPyMain (pythonMain localeSensitiveWorld ["python"]).trace = false ∧
    (pythonMain localeSensitiveWorld ["python"]).pyArgs = none :=
  C6_decode_failure_reporting localeSensitiveWorld ["python"] 0 "python"
    (by decide) (by decide) rfl (fun j hj => absurd hj (Nat.not_lt_zero j))

/-- C4 counterexample: in a world where argument decoding fails, the final
locale is the native locale, not the startup locale, so the locale is NOT
restored on the fatal decode-failure path. -/
theorem C4_counterexample :
    (pythonMain localeSensitiveWorld ["python"]).finalLocale ≠ localeSensitiveWorld.locale0 ∧
    (pythonMain localeSensitiveWorld ["python"]).finalLocale = "en_US.UTF-8" ∧
    localeSensitiveWorld.locale0 = "C" :=
  ⟨by decide, by decide, by decide⟩

/-- C4 (amended): the locale is restored to its pre-marshaling value on every
path on which marshaling does not fail; on the decode-failure path the
process exits with the locale still set to the native locale. -/
theorem C4_locale_restoration (w : World) (args : List String) :
    ((∀ i : Nat, marshalLoop (w.decode w.nativeLocale) args 0 ≠ .error i) →
      (pythonMain w args).finalLocale = w.locale0) ∧
    (binderOk w → ∀ i : Nat, marshalLoop (w.decode w.nativeLocale) args 0 = .error i →
      (pythonMain w args).finalLocale = w.nativeLocale) := by
  constructor
  · intro hne
    by_cases hb : binderOk w
    · cases hm : marshalLoop (w.decode w.nativeLocale) args 0 with
      | error i => exact absurd hm (hne i)
      | ok p =>
        obtain ⟨c1, c2⟩ := p
        rw [pythonMain_ok w args c1 c2 hb hm]
    · obtain ⟨msg, hrun, _⟩ := pythonMain_binder_fail w args hb
      rw [hrun]
  · intro hb i hi
    rw [pythonMain_decode_fail w args i hb hi]

theorem C4_witness :
    (pythonMain okWorld ["python"]).finalLocale = okWorld.locale0 ∧
    (pythonMain localeSensitiveWorld ["python"]).finalLocale =
      localeSensitiveWorld.nativeLocale := by
  constructor
  · exact (C4_locale_restoration okWorld ["python"]).1
      (fun i h => by simp [marshalLoop, okWorld] at h)
  · exact (C4_locale_restoration localeSensitiveWorld ["python"]).2 (by decide) 0 rfl


/-- C8: the results `PyRun_SimpleString` returns are never inspected: two
runs differing only in those results have the same exit code, stderr, final
locale and `Py_Main` arguments, and traces equal up to the recorded results;
moreover every run with a working binder submits all six statements and
still reaches `Py_Main` whenever marshaling succeeds. -/
theorem C8_run_string_results_nonfatal (w : World) (args : List String) (r1 r2 : String → Int) :
    ((pythonMain { w with runString := r1 } args).exitCode =
        (pythonMain { w with runString := r2 } args).exitCode ∧
      (pythonMain { w with runString := r1 } args).stderrOut =
        (pythonMain { w with runString := r2 } args).stderrOut ∧
      (pythonMain { w with runString := r1 } args).finalLocale =
        (pythonMain { w with runString := r2 } args).finalLocale ∧
      (pythonMain { w with runString := r1 } args).pyArgs =
        (pythonMain { w with runString := r2 } args).pyArgs ∧
      (pythonMain { w with runString := r1 } args).trace.map eraseRes =
        (pythonMain { w with runString := r2 } args).trace.map eraseRes) ∧
    (binderOk w →
      hasStmt (pythonMain w args).trace importStmt = true ∧
      hasStmt (pythonMain w args).trace argvResetStmt = true ∧
      hasStmt (pythonMain w args).trace (add_prefix_line (unpackOf w)) = true ∧
      hasStmt (pythonMain w args).trace (add_site_packages_dir (unpackOf w)) = true ∧
      hasStmt (pythonMain w args).trace (add_lib_path (unpackOf w)) = true ∧
      hasStmt (pythonMain w args).trace dotPathStmt = true ∧
      (∀ c1 c2, marshalLoop (w.decode w.nativeLocale) args 0 = .ok (c1, c2) →
        hasPyMain (pythonMain w args).trace = true)) := by
  constructor
  · by_cases hd : w.dlopenOk = true
    · cases hf : nineSymbols.find? (fun n => !(w.resolves n)) with
      | some m =>
        rw [pythonMain_symbol_fail { w with runString := r1 } args m hd hf,
            pythonMain_symbol_fail { w with runString := r2 } args m hd hf]
        exact ⟨rfl, rfl, rfl, rfl, rfl⟩
      | none =>
        have hb := binderOk_of_find?_none w hd hf
        cases hm : marshalLoop (w.decode w.nativeLocale) args 0 with
        | error i =>
          rw [pythonMain_decode_fail { w with runString := r1 } args i hb hm,
              pythonMain_decode_fail { w with runString := r2 } args i hb hm]
          refine ⟨rfl, rfl, rfl, rfl, ?_⟩
          simp [builderTrace, eraseRes, unpackOf]
        | ok p =>
          obtain ⟨c1, c2⟩ := p
          rw [pythonMain_ok { w with runString := r1 } args c1 c2 hb hm,
              pythonMain_ok { w with runString := r2 } args c1 c2 hb hm]
          refine ⟨rfl, rfl, rfl, rfl, ?_⟩
          simp [builderTrace, eraseRes, unpackOf]
    · have hd2 : w.dlopenOk = false := by simpa using hd
      rw [pythonMain_dlopen_fail { w with runString := r1 } args hd2,
          pythonMain_dlopen_fail { w with runString := r2 } args hd2]
      exact ⟨rfl, rfl, rfl, rfl, rfl⟩
  · intro hb
    cases hm : marshalLoop (w.decode w.nativeLocale) args 0 with
    | error i =>
      rw [pythonMain_decode_fail w args i hb hm]
      refine ⟨?_, ?_, ?_, ?_, ?_, ?_, fun c1 c2 hok => ?_⟩
      · simp [hasStmt, builderTrace]
      · simp [hasStmt, builderTrace]
      · simp [hasStmt, builderTrace]
      · simp [hasStmt, builderTrace]
      · simp [hasStmt, builderTrace]
      · simp [hasStmt, builderTrace]
      · exact Except.noConfusion hok
    | ok p =>
      obtain ⟨c1, c2⟩ := p
      rw [pythonMain_ok w args c1 c2 hb hm]
      refine ⟨?_, ?_, ?_, ?_, ?_, ?_, fun d1 d2 _ => ?_⟩
      · simp [hasStmt, builderTrace]
      · simp [hasStmt, builderTrace]
      · simp [hasStmt, builderTrace]
      · simp [hasStmt, builderTrace]
      · simp [hasStmt, builderTrace]
      · simp [hasStmt, builderTrace]
      · simp [hasPyMain]

theorem C8_witness :
    (pythonMain { okWorld with runString := fun _ => 0 } ["python"]).exitCode =
      (pythonMain { okWorld with runString := fun _ => 1 } ["python"]).exitCode ∧
    hasStmt (pythonMain okWorld ["python"]).trace dotPathStmt = true := by
  have h := C8_run_string_results_nonfatal okWorld ["python"] (fun _ => 0) (fun _ => 1)
  exact ⟨h.1.1, (h.2 (by decide)).2.2.2.2.2.1⟩

set_option maxRecDepth 40000

/-- C1 counterexample: with a 300-character unpack root the string passed to
the path-setter is the truncated buffer contents, not
`B/stdlib.zip:B/modules`, so the claim fails as stated for that root. -/
theorem C1_counterexample :
    hasSetPath (pythonMain longWorld ["app"]).trace
      ((longU ++ "/_python_bundle") ++ "/stdlib.zip:" ++
        (longU ++ "/_python_bundle") ++ "/modules") = false := by
  decide

/-- C1 (amended): provided the two formatted path strings fit their 256-byte
buffers and the bootstrap succeeds, the run's trace is exactly: set program
name, `Py_SetPath` on exactly `B/stdlib.zip:B/modules`, `Py_Initialize`,
`PyEval_InitThreads`, the six statements with prefix, `B/site-packages`,
`U/lib/python3.8/site-packages` and `\x27.\x27` in that relative order, and
finally `Py_Main`. -/
theorem C1_search_path_and_statement_order (w : World) (args : List String)
    (c1 c2 : List (List Char)) (hb : binderOk w)
    (hfit1 : (unpackOf w ++ "/_python_bundle").length ≤ 255)
    (hfit2 : ((unpackOf w ++ "/_python_bundle") ++ "/stdlib.zip:" ++
      (unpackOf w ++ "/_python_bundle") ++ "/modules").length ≤ 255)
    (hm : marshalLoop (w.decode w.nativeLocale) args 0 = .ok (c1, c2)) :
    (pythonMain w args).trace =
      [Ev.setProgramNameEv "android_python",
       Ev.setPathEv ((unpackOf w ++ "/_python_bundle") ++ "/stdlib.zip:" ++
           (unpackOf w ++ "/_python_bundle") ++ "/modules")
         (w.decode w.locale0 ((unpackOf w ++ "/_python_bundle") ++ "/stdlib.zip:" ++
           (unpackOf w ++ "/_python_bundle") ++ "/modules")),
       Ev.initEv,
       Ev.evalInitEv,
       Ev.runStringEv importStmt (w.runString importStmt),
       Ev.runStringEv argvResetStmt (w.runString argvResetStmt),
       Ev.runStringEv (add_prefix_line (unpackOf w)) (w.runString (add_prefix_line (unpackOf w))),
       Ev.runStringEv (add_site_packages_dir (unpackOf w))
         (w.runString (add_site_packages_dir (unpackOf w))),
       Ev.runStringEv (add_lib_path (unpackOf w)) (w.runString (add_lib_path (unpackOf w))),
       Ev.runStringEv dotPathStmt (w.runString dotPathStmt),
       Ev.pyMainEv args.length (c1.map some ++ [none])] := by
  have hbd : python_bundle_dir (unpackOf w) = unpackOf w ++ "/_python_bundle" :=
    snprintfTrunc_of_fits 256 _ (by simpa using hfit1)
  have hsp : searchPaths (unpackOf w) = (unpackOf w ++ "/_python_bundle") ++ "/stdlib.zip:" ++
      (unpackOf w ++ "/_python_bundle") ++ "/modules" := by
    rw [searchPaths, hbd]
    exact snprintfTrunc_of_fits 256 _ (by simpa using hfit2)
  rw [pythonMain_ok w args c1 c2 hb hm]
  simp [builderTrace, hsp]

theorem C1_witness :
    hasSetPath (pythonMain okWorld ["python"]).trace
      "/data/app/_python_bundle/stdlib.zip:/data/app/_python_bundle/modules" = true := by
  have h := C1_search_path_and_statement_order okWorld ["python"]
    ["python".data] ["python".data] (by decide) (by decide) (by decide) rfl
  rw [h]
  decide

/-- C9 counterexample: with a 300-character unpack root the injected lib-path
statement is truncated and is not
`sys.path.append(\x27U/lib/python3.8/site-packages\x27)`. -/
theorem C9_counterexample :
    hasStmt (pythonMain longWorld ["app"]).trace
      ("sys.path.append(\x27" ++ longU ++ "/lib/python3.8/site-packages\x27)") = false ∧
    add_lib_path longU ≠
      "sys.path.append(\x27" ++ longU ++ "/lib/python3.8/site-packages\x27)" :=
  ⟨by decide, by decide⟩

/-- C9 (amended): provided the formatted statement fits its 256-byte buffer,
the injected lib-path statement is exactly
`sys.path.append(\x27U/lib/python3.8/site-packages\x27)` — the version
component is the hard-coded literal `python3.8`, for every world — and every
run with a working binder submits it. -/
theorem C9_hardcoded_lib_path (w : World) (args : List String)
    (hb : binderOk w)
    (hfit : ("sys.path.append(\x27" ++ unpackOf w ++
      "/lib/python3.8/site-packages\x27)").length ≤ 255) :
    add_lib_path (unpackOf w) =
      "sys.path.append(\x27" ++ unpackOf w ++ "/lib/python3.8/site-packages\x27)" ∧
    hasStmt (pythonMain w args).trace
      ("sys.path.append(\x27" ++ unpackOf w ++ "/lib/python3.8/site-packages\x27)") = true := by
  have heq : add_lib_path (unpackOf w) =
      "sys.path.append(\x27" ++ unpackOf w ++ "/lib/python3.8/site-packages\x27)" :=
    snprintfTrunc_of_fits 256 _ (by simpa using hfit)
  refine ⟨heq, ?_⟩
  rw [← heq]
  cases hm : marshalLoop (w.decode w.nativeLocale) args 0 with
  | error i =>
    rw [pythonMain_decode_fail w args i hb hm]
    simp [hasStmt, builderTrace]
  | ok p =>
    obtain ⟨c1, c2⟩ := p
    rw [pythonMain_ok w args c1 c2 hb hm]
    simp [hasStmt, builderTrace]

theorem C9_witness :
    add_lib_path (unpackOf okWorld) =
      "sys.path.append(\x27" ++ unpackOf okWorld ++ "/lib/python3.8/site-packages\x27)" ∧
    hasStmt (pythonMain okWorld ["python"]).trace
      ("sys.path.append(\x27" ++ unpackOf okWorld ++
        "/lib/python3.8/site-packages\x27)") = true :=
  C9_hardcoded_lib_path okWorld ["python"] (by decide) (by decide)

/-- C10: every built string fits a 256-byte buffer (at most 255 characters);
each equals the full formatted text exactly when that text fits, and is
silently cut to exactly 255 characters (differing from the full text) when
it does not. -/
theorem C10_buffer_truncation (u : String) :
    ((python_bundle_dir u).length ≤ 255 ∧ (searchPaths u).length ≤ 255 ∧
     (add_site_packages_dir u).length ≤ 255 ∧ (add_lib_path u).length ≤ 255 ∧
     (add_prefix_line u).length ≤ 255) ∧
    (((u ++ "/_python_bundle").length ≤ 255 → python_bundle_dir u = u ++ "/_python_bundle") ∧
     ((python_bundle_dir u ++ "/stdlib.zip:" ++ python_bundle_dir u ++ "/modules").length ≤ 255 →
       searchPaths u = python_bundle_dir u ++ "/stdlib.zip:" ++ python_bundle_dir u ++ "/modules") ∧
     (("sys.path.append(\x27" ++ python_bundle_dir u ++ "/site-packages\x27)").length ≤ 255 →
       add_site_packages_dir u =
         "sys.path.append(\x27" ++ python_bundle_dir u ++ "/site-packages\x27)") ∧
     (("sys.path.append(\x27" ++ u ++ "/lib/python3.8/site-packages\x27)").length ≤ 255 →
       add_lib_path u = "sys.path.append(\x27" ++ u ++ "/lib/python3.8/site-packages\x27)") ∧
     (("sys.prefix = \x27" ++ u ++ "\x27").length ≤ 255 →
       add_prefix_line u = "sys.prefix = \x27" ++ u ++ "\x27")) ∧
    ((255 < (u ++ "/_python_bundle").length →
       python_bundle_dir u ≠ u ++ "/_python_bundle" ∧ (python_bundle_dir u).length = 255) ∧
     (255 < ("sys.path.append(\x27" ++ u ++ "/lib/python3.8/site-packages\x27)").length →
       add_lib_path u ≠ "sys.path.append(\x27" ++ u ++ "/lib/python3.8/site-packages\x27)" ∧
       (add_lib_path u).length = 255)) := by
  refine ⟨⟨?_, ?_, ?_, ?_, ?_⟩, ⟨?_, ?_, ?_, ?_, ?_⟩, ?_, ?_⟩
  · simp only [python_bundle_dir, snprintfTrunc_length]; omega
  · simp only [searchPaths, snprintfTrunc_length]; omega
  · simp only [add_site_packages_dir, snprintfTrunc_length]; omega
  · simp only [add_lib_path, snprintfTrunc_length]; omega
  · simp only [add_prefix_line, snprintfTrunc_length]; omega
  · exact fun h => snprintfTrunc_of_fits 256 _ (by simpa using h)
  · exact fun h => snprintfTrunc_of_fits 256 _ (by simpa using h)
  · exact fun h => snprintfTrunc_of_fits 256 _ (by simpa using h)
  · exact fun h => snprintfTrunc_of_fits 256 _ (by simpa using h)
  · exact fun h => snprintfTrunc_of_fits 256 _ (by simpa using h)
  · intro h
    have hl := snprintfTrunc_of_long 256 (u ++ "/_python_bundle") (by simpa using h)
    exact ⟨hl.2, hl.1⟩
  · intro h
    have hl := snprintfTrunc_of_long 256
      ("sys.path.append(\x27" ++ u ++ "/lib/python3.8/site-packages\x27)") (by simpa using h)
    exact ⟨hl.2, hl.1⟩

theorem C10_witness :
    python_bundle_dir "/data/app" = "/data/app/_python_bundle" ∧
    (python_bundle_dir longU).length = 255 :=
  ⟨(C10_buffer_truncation "/data/app").2.1.1 (by decide),
   ((C10_buffer_truncation longU).2.2.1 (by decide)).2⟩

end PythonBootstrap
